import Mathlib

/-!
# Odometry and wheel-velocity nodes

A shallow embedding of the two ROS nodes of the repository:

* `src/odometry.cpp`, class `ComputeOdometry`: dead-reckoning pose integration
  (Euler or second order Runge-Kutta) with a pose-reset service and a
  run-time selectable integration method;
* `src/velocitiesTicks.cpp`, class `ComputeVelocity`: body velocity from the
  four wheel encoders, computed on every fifth message.

Modelling conventions.

* A C++ `double` is an element of a field `R`; the definitions are generic in
  `R` and in the `<math.h>` functions (`Libm R`), the theorems are stated for
  exact real arithmetic (`R = ℝ`, with `Real.sin`, `Real.cos`, `Real.sqrt`,
  `Real.pi`).  Rounding and overflow are outside the model.
* The odometry node never divides by a variable.  The velocity node does (by
  `gearRatio`, the elapsed time, `tickResolution`, `4*(wheelRadius+halfLength)`),
  so its computed doubles are of type `Double R`, which adds to `R` one value
  for the non-finite outcome of a division by zero.
* A callback is a function from the object state and the message to the new
  object state together with what it publishes (`none` when nothing is
  published).
* The members `x`, `y`, `theta`, `ts`, `deltats`, `v_k` (and `wfl`, `ticfl`,
  `vx`, ... in the velocity node) are written before they are read in every
  call, so they are local `let`s and not part of the state.
* `int msgCount` is a 32 bit signed counter: `++msgCount` wraps around in
  two's complement, `%` is the truncating remainder of C++.
-/

/-- The `<math.h>` functions and constants used by the two nodes. -/
class Libm (R : Type) where
  /-- The function `sin` -/
  sin : R → R
  /-- The function `cos` -/
  cos : R → R
  /-- The function `sqrt` -/
  sqrt : R → R
  /-- The constant `M_PI` -/
  pi : R

/-- Exact real arithmetic as the interpretation of `<math.h>`. -/
noncomputable instance realLibm : Libm ℝ where
  sin := Real.sin
  cos := Real.cos
  sqrt := Real.sqrt
  pi := Real.pi

/-- A `ros::Time` message stamp: the two `uint32_t` fields `sec` and `nsec`. -/
structure Time where
  sec : Nat
  nsec : Nat
deriving DecidableEq, Repr

/-- The fields of `geometry_msgs::TwistStamped` the nodes read or write. -/
structure TwistStamped (R : Type) where
  stamp : Time
  linear_x : R
  linear_y : R
  angular_z : R

/-- The fields of `nav_msgs::Odometry` set by `publishOdometry`:
`pose.pose.position.x`, `pose.pose.position.y`, `pose.pose.orientation.z`. -/
structure Odometry (R : Type) where
  position_x : R
  position_y : R
  orientation_z : R

/-- The request of the `project_1::Reset` service. -/
structure ResetRequest (R : Type) where
  x_new : R
  y_new : R
  theta_new : R

/-- The response of the `project_1::Reset` service. -/
structure ResetResponse (R : Type) where
  x_old : R
  y_old : R
  theta_old : R

/-- The persistent members of class `ComputeOdometry`. -/
structure ComputeOdometry (R : Type) where
  x0 : R
  y0 : R
  theta0 : R
  ts0 : R
  set_method : Int

/-- What `resetCallback` produces: the new object state, the filled response,
the odometry message it publishes and its return value. -/
structure ResetResult (R : Type) where
  self : ComputeOdometry R
  res : ResetResponse R
  published : Odometry R
  ret : Bool

namespace ComputeOdometry

variable {R : Type} [Field R] [DecidableEq R] [Libm R]

/-- The member initialisation of the constructor `ComputeOdometry()`
(lines 18-22): pose at the origin, `ts0 = 0.0`, Euler method. -/
def new : ComputeOdometry R :=
  { x0 := 0, y0 := 0, theta0 := 0, ts0 := 0, set_method := 0 }

/-- The stamp in seconds:
`msg->header.stamp.sec + msg->header.stamp.nsec * pow(10, -9)`. -/
def computeTimeStamp (msg : TwistStamped R) : R :=
  (msg.stamp.sec : R) + (msg.stamp.nsec : R) * (10 : R) ^ (-9 : ℤ)

/-- The message built by `publishOdometry` from the stored pose. -/
def publishOdometry (self : ComputeOdometry R) : Odometry R :=
  { position_x := self.x0, position_y := self.y0, orientation_z := self.theta0 }

/-- The callback `eulerOdometry`. -/
def eulerOdometry (self : ComputeOdometry R) (msg : TwistStamped R) :
    ComputeOdometry R × Option (Odometry R) :=
  if self.ts0 = 0 then
    ({ self with ts0 := computeTimeStamp msg }, none)
  else
    let ts := computeTimeStamp msg
    let deltats := ts - self.ts0
    let theta := self.theta0 + msg.angular_z * deltats
    let x := self.x0 + deltats *
      (msg.linear_x * Libm.cos theta + msg.linear_y * Libm.sin (90 + theta))
    let y := self.y0 + deltats *
      (msg.linear_x * Libm.sin theta + msg.linear_y * Libm.sin (90 + theta))
    let self1 := { self with theta0 := theta, x0 := x, y0 := y, ts0 := ts }
    (self1, some (publishOdometry self1))

/-- The callback `rungeKuttaOdometry`. -/
def rungeKuttaOdometry (self : ComputeOdometry R) (msg : TwistStamped R) :
    ComputeOdometry R × Option (Odometry R) :=
  if self.ts0 = 0 then
    ({ self with ts0 := computeTimeStamp msg }, none)
  else
    let ts := computeTimeStamp msg
    let deltats := ts - self.ts0
    let theta := self.theta0 + msg.angular_z * deltats
    let v_k := Libm.sqrt (msg.linear_x ^ 2 + msg.linear_y ^ 2)
    let x := self.x0 + v_k * deltats * Libm.cos (self.theta0 + msg.angular_z * deltats / 2)
    let y := self.y0 + v_k * deltats * Libm.sin (self.theta0 + msg.angular_z * deltats / 2)
    let self1 := { self with theta0 := theta, x0 := x, y0 := y, ts0 := ts }
    (self1, some (publishOdometry self1))

/-- The subscriber callback `callOdometryMethod`: dispatch on `set_method`. -/
def callOdometryMethod (self : ComputeOdometry R) (msg : TwistStamped R) :
    ComputeOdometry R × Option (Odometry R) :=
  if self.set_method = 0 then eulerOdometry self msg else rungeKuttaOdometry self msg

/-- The service callback `resetCallback`. -/
def resetCallback (self : ComputeOdometry R) (req : ResetRequest R) : ResetResult R :=
  let res : ResetResponse R :=
    { x_old := self.x0, y_old := self.y0, theta_old := self.theta0 }
  let self1 := { self with x0 := req.x_new, y0 := req.y_new, theta0 := req.theta_new }
  { self := self1, res := res, published := publishOdometry self1, ret := true }

/-- The dynamic-reconfigure callback `parametersCallback`; `config_set_method`
is the field `config.set_method`. -/
def parametersCallback (self : ComputeOdometry R) (config_set_method : Int) :
    ComputeOdometry R :=
  if config_set_method = 0 then { self with set_method := 0 }
  else { self with set_method := 1 }

/-- The object state after a stream of messages. -/
def feed (self : ComputeOdometry R) (msgs : List (TwistStamped R)) : ComputeOdometry R :=
  msgs.foldl (fun st msg => (callOdometryMethod st msg).1) self

/-- The Euler update as the specification words it: both `linear.y` terms
multiply `sin` of the updated heading. -/
def eulerSpec (self : ComputeOdometry R) (msg : TwistStamped R) : Odometry R :=
  let dt := computeTimeStamp msg - self.ts0
  let theta1 := self.theta0 + msg.angular_z * dt
  { position_x := self.x0 + dt * (msg.linear_x * Libm.cos theta1 + msg.linear_y * Libm.sin theta1),
    position_y := self.y0 + dt * (msg.linear_x * Libm.sin theta1 + msg.linear_y * Libm.sin theta1),
    orientation_z := theta1 }

end ComputeOdometry

/-- The fields of `sensor_msgs::JointState` read by `sensorCallback`: the
stamp and `position[0]`, ..., `position[3]` (front-left, front-right,
rear-left, rear-right encoder). -/
structure JointState (R : Type) where
  stamp : Time
  position : Fin 4 → R

/-- A `double` of the velocity node, whose arithmetic divides by variables:
`val x` is the real number `x`, `nonfinite` is an infinity or a NaN, that is
the result of a division by zero and of every operation one of whose operands
is such a result (no operation of the node divides by a non-finite value). -/
inductive Double (R : Type) where
  | val (x : R)
  | nonfinite

namespace Double

variable {R : Type} [Field R] [DecidableEq R]

/-- The operator `+` on `double`. -/
def add : Double R → Double R → Double R
  | val x, val y => val (x + y)
  | _, _ => nonfinite

/-- The binary operator `-` on `double`. -/
def sub : Double R → Double R → Double R
  | val x, val y => val (x - y)
  | _, _ => nonfinite

/-- The operator `*` on `double`. -/
def mul : Double R → Double R → Double R
  | val x, val y => val (x * y)
  | _, _ => nonfinite

/-- The unary operator `-` on `double`. -/
def neg : Double R → Double R
  | val x => val (-x)
  | nonfinite => nonfinite

/-- The operator `/` on `double`: a zero divisor gives an infinity or NaN. -/
def div : Double R → Double R → Double R
  | val x, val y => if y = 0 then nonfinite else val (x / y)
  | _, _ => nonfinite

instance : Add (Double R) := ⟨add⟩

instance : Sub (Double R) := ⟨sub⟩

instance : Mul (Double R) := ⟨mul⟩

instance : Neg (Double R) := ⟨neg⟩

instance : Div (Double R) := ⟨div⟩

instance (n : Nat) : OfNat (Double R) n := ⟨val (n : R)⟩

end Double

/-- The persistent members of class `ComputeVelocity`; the five configuration
members are read once from the parameter server by the constructor. -/
structure ComputeVelocity (R : Type) where
  gearRatio : Int
  wheelRadius : R
  halfLength : R
  halfWidth : R
  tickResolution : Int
  ticfl0 : Double R
  ticfr0 : Double R
  ticrr0 : Double R
  ticrl0 : Double R
  ts0 : Time
  msgCount : Int

/-- The value of a 32 bit signed `int` after an arithmetic result `z`
(two's complement wrap-around). -/
def wrapInt32 (z : Int) : Int :=
  (z + 2147483648) % 4294967296 - 2147483648

namespace ComputeVelocity

variable {R : Type} [Field R] [DecidableEq R] [Libm R]

/-- The member `const int msgInterval = 5`. -/
def msgInterval : Int := 5

/-- The constructor `ComputeVelocity()`: zero references, counter 0, and the
configuration as found on the parameter server. -/
def new (gearRatio : Int) (wheelRadius halfLength halfWidth : R) (tickResolution : Int) :
    ComputeVelocity R :=
  { gearRatio := gearRatio, wheelRadius := wheelRadius, halfLength := halfLength,
    halfWidth := halfWidth, tickResolution := tickResolution,
    ticfl0 := Double.val 0, ticfr0 := Double.val 0, ticrr0 := Double.val 0,
    ticrl0 := Double.val 0,
    ts0 := { sec := 0, nsec := 0 }, msgCount := 0 }

/-- The elapsed seconds `(ts - ts0).toSec()` between two `ros::Time` stamps. -/
def deltaToSec (ts ts0 : Time) : R :=
  ((ts.sec : R) - (ts0.sec : R)) + ((ts.nsec : R) - (ts0.nsec : R)) * (10 : R) ^ (-9 : ℤ)

/-- The body of the `if(msgCount%msgInterval == 0)` statement of
`sensorCallback`; `none` stands for no message published. -/
def sensorBody (self : ComputeVelocity R) (msg : JointState R) :
    ComputeVelocity R × Option (TwistStamped (Double R)) :=
  let gearRatio : Double R := Double.val (self.gearRatio : R)
  let tickResolution : Double R := Double.val (self.tickResolution : R)
  let wheelRadius : Double R := Double.val self.wheelRadius
  let halfLength : Double R := Double.val self.halfLength
  let M_PI : Double R := Double.val Libm.pi
  if Int.tmod self.msgCount msgInterval = 0 then
    if self.msgCount = 0 then
      ({ self with
          ts0 := msg.stamp,
          ticfl0 := Double.val (msg.position 0) / gearRatio,
          ticfr0 := Double.val (msg.position 1) / gearRatio,
          ticrl0 := Double.val (msg.position 2) / gearRatio,
          ticrr0 := Double.val (msg.position 3) / gearRatio }, none)
    else
      let ts := msg.stamp
      let deltats : Double R := Double.val (deltaToSec ts self.ts0)
      let ticfl := Double.val (msg.position 0) / gearRatio
      let wfl := (ticfl - self.ticfl0) / deltats * 2 * M_PI / tickResolution
      let ticfr := Double.val (msg.position 1) / gearRatio
      let wfr := (ticfr - self.ticfr0) / deltats * 2 * M_PI / tickResolution
      let ticrl := Double.val (msg.position 2) / gearRatio
      let wrl := (ticrl - self.ticrl0) / deltats * 2 * M_PI / tickResolution
      let ticrr := Double.val (msg.position 3) / gearRatio
      let wrr := (ticrr - self.ticrr0) / deltats * 2 * M_PI / tickResolution
      let vx := (wfl + wfr + wrr + wrl) * wheelRadius / 4
      let vy := (-wfl + wfr + wrl - wrr) * wheelRadius / 4
      let wz := (-wfl + wfr - wrl + wrr) * wheelRadius / (4 * (wheelRadius + halfLength))
      ({ self with
          ticfl0 := ticfl, ticfr0 := ticfr, ticrl0 := ticrl, ticrr0 := ticrr, ts0 := ts },
        some { stamp := { sec := msg.stamp.sec, nsec := msg.stamp.nsec },
               linear_x := vx, linear_y := vy, angular_z := wz })
  else
    (self, none)

/-- The subscriber callback `sensorCallback`: the decimated body followed by
`++msgCount`. -/
def sensorCallback (self : ComputeVelocity R) (msg : JointState R) :
    ComputeVelocity R × Option (TwistStamped (Double R)) :=
  let r := sensorBody self msg
  ({ r.1 with msgCount := wrapInt32 (r.1.msgCount + 1) }, r.2)

/-- The object state after a stream of messages. -/
def feed (self : ComputeVelocity R) (msgs : List (JointState R)) : ComputeVelocity R :=
  msgs.foldl (fun st msg => (sensorCallback st msg).1) self

end ComputeVelocity

/-! ## Concrete inputs used in the examples -/

/-- A velocity message stamped `sec` seconds (and 0 nanoseconds). -/
@[simp] def twist {R : Type} (sec : Nat) (vx vy omega : R) : TwistStamped R :=
  { stamp := { sec := sec, nsec := 0 }, linear_x := vx, linear_y := vy, angular_z := omega }

/-- A wheel message stamped `sec` seconds whose four positions are all `p`. -/
@[simp] def ticks {R : Type} (sec : Nat) (p : R) : JointState R :=
  { stamp := { sec := sec, nsec := 0 }, position := fun _ => p }

/-- A velocity node with `gearRatio = 5`, `halfWidth = 0.169`,
`tickResolution = 42` (the defaults), the given `wheelRadius` and
`halfLength`, all four reference angles `p`, `ts0` at `sec` seconds and the
counter at `count`. -/
@[simp] def running {R : Type} [Field R] (wr hl p : R) (sec : Nat) (count : Int) :
    ComputeVelocity R :=
  { gearRatio := 5, wheelRadius := wr, halfLength := hl, halfWidth := 0.169,
    tickResolution := 42, ticfl0 := Double.val p, ticfr0 := Double.val p,
    ticrr0 := Double.val p, ticrl0 := Double.val p,
    ts0 := { sec := sec, nsec := 0 }, msgCount := count }

/-! ## Auxiliary facts -/

/-- Over the reals `sin` is `Real.sin`. -/
@[simp] theorem libm_sin_real (t : ℝ) : Libm.sin t = Real.sin t := rfl

/-- Over the reals `cos` is `Real.cos`. -/
@[simp] theorem libm_cos_real (t : ℝ) : Libm.cos t = Real.cos t := rfl

/-- Over the reals `sqrt` is `Real.sqrt`. -/
@[simp] theorem libm_sqrt_real (t : ℝ) : Libm.sqrt t = Real.sqrt t := rfl

/-- Over the reals `M_PI` is `Real.pi`. -/
@[simp] theorem libm_pi_real : (Libm.pi : ℝ) = Real.pi := rfl

/-- The argument `90` (radians) of the Euler translation has a positive sine. -/
theorem sin_ninety_pos : 0 < Real.sin 90 := by
  have h : Real.sin 90 = Real.sin (90 - (14 : ℕ) * (2 * Real.pi)) :=
    (Real.sin_sub_nat_mul_two_pi 90 14).symm
  rw [h]
  have h1 := Real.pi_gt_d2
  have h2 := Real.pi_lt_d2
  apply Real.sin_pos_of_pos_of_lt_pi
  · push_cast; linarith
  · push_cast; linarith

namespace ComputeOdometry

/-- Both integration callbacks store the stamp of the message as `ts0`. -/
theorem callOdometryMethod_ts0 (s : ComputeOdometry ℝ) (msg : TwistStamped ℝ) :
    (callOdometryMethod s msg).1.ts0 = computeTimeStamp msg := by
  unfold callOdometryMethod eulerOdometry rungeKuttaOdometry
  by_cases hm : s.set_method = 0 <;> by_cases ht : s.ts0 = 0 <;> simp [hm, ht]

/-- A message is answered by a publication exactly when `ts0` is not `0.0`. -/
theorem callOdometryMethod_isSome (s : ComputeOdometry ℝ) (msg : TwistStamped ℝ) :
    (callOdometryMethod s msg).2.isSome = true ↔ s.ts0 ≠ 0 := by
  unfold callOdometryMethod eulerOdometry rungeKuttaOdometry
  by_cases hm : s.set_method = 0 <;> by_cases ht : s.ts0 = 0 <;> simp [hm, ht]

/-- The publication of the Runge-Kutta callback when `ts0` is set. -/
theorem rungeKutta_published (s : ComputeOdometry ℝ) (msg : TwistStamped ℝ)
    (hmode : s.set_method ≠ 0) (hts : s.ts0 ≠ 0) :
    (callOdometryMethod s msg).2 = some
      { position_x := s.x0
          + Real.sqrt (msg.linear_x ^ 2 + msg.linear_y ^ 2) * (computeTimeStamp msg - s.ts0)
            * Real.cos (s.theta0 + msg.angular_z * (computeTimeStamp msg - s.ts0) / 2),
        position_y := s.y0
          + Real.sqrt (msg.linear_x ^ 2 + msg.linear_y ^ 2) * (computeTimeStamp msg - s.ts0)
            * Real.sin (s.theta0 + msg.angular_z * (computeTimeStamp msg - s.ts0) / 2),
        orientation_z := s.theta0 + msg.angular_z * (computeTimeStamp msg - s.ts0) } := by
  simp only [callOdometryMethod, rungeKuttaOdometry, publishOdometry, if_neg hmode, if_neg hts]
  rfl

/-- The publication of the Euler callback when `ts0` is set. -/
theorem euler_published (s : ComputeOdometry ℝ) (msg : TwistStamped ℝ)
    (hmode : s.set_method = 0) (hts : s.ts0 ≠ 0) :
    (callOdometryMethod s msg).2 = some
      { position_x := s.x0 + (computeTimeStamp msg - s.ts0) *
          (msg.linear_x * Real.cos (s.theta0 + msg.angular_z * (computeTimeStamp msg - s.ts0))
            + msg.linear_y
              * Real.sin (90 + (s.theta0 + msg.angular_z * (computeTimeStamp msg - s.ts0)))),
        position_y := s.y0 + (computeTimeStamp msg - s.ts0) *
          (msg.linear_x * Real.sin (s.theta0 + msg.angular_z * (computeTimeStamp msg - s.ts0))
            + msg.linear_y
              * Real.sin (90 + (s.theta0 + msg.angular_z * (computeTimeStamp msg - s.ts0)))),
        orientation_z := s.theta0 + msg.angular_z * (computeTimeStamp msg - s.ts0) } := by
  simp only [callOdometryMethod, eulerOdometry, publishOdometry, if_pos hmode, if_neg hts]
  rfl

end ComputeOdometry

namespace Double

/-- The sum of two real values. -/
@[simp] theorem val_add_val (x y : ℝ) : (val x + val y : Double ℝ) = val (x + y) := rfl

/-- The difference of two real values. -/
@[simp] theorem val_sub_val (x y : ℝ) : (val x - val y : Double ℝ) = val (x - y) := rfl

/-- The product of two real values. -/
@[simp] theorem val_mul_val (x y : ℝ) : (val x * val y : Double ℝ) = val (x * y) := rfl

/-- The opposite of a real value. -/
@[simp] theorem neg_val (x : ℝ) : (-(val x) : Double ℝ) = val (-x) := rfl

/-- The quotient of two real values. -/
@[simp] theorem val_div_val (x y : ℝ) :
    (val x / val y : Double ℝ) = if y = 0 then nonfinite else val (x / y) := rfl

/-- A non-finite left operand of `+`. -/
@[simp] theorem nonfinite_add (a : Double ℝ) : nonfinite + a = nonfinite := rfl

/-- A non-finite right operand of `+`. -/
@[simp] theorem add_nonfinite (a : Double ℝ) : a + nonfinite = nonfinite := by
  cases a <;> rfl

/-- A non-finite left operand of `-`. -/
@[simp] theorem nonfinite_sub (a : Double ℝ) : nonfinite - a = nonfinite := rfl

/-- A non-finite right operand of `-`. -/
@[simp] theorem sub_nonfinite (a : Double ℝ) : a - nonfinite = nonfinite := by
  cases a <;> rfl

/-- A non-finite left operand of `*`. -/
@[simp] theorem nonfinite_mul (a : Double ℝ) : nonfinite * a = nonfinite := rfl

/-- A non-finite right operand of `*`. -/
@[simp] theorem mul_nonfinite (a : Double ℝ) : a * nonfinite = nonfinite := by
  cases a <;> rfl

/-- A non-finite dividend. -/
@[simp] theorem nonfinite_div (a : Double ℝ) : nonfinite / a = nonfinite := rfl

/-- A non-finite divisor. -/
@[simp] theorem div_nonfinite (a : Double ℝ) : a / nonfinite = nonfinite := by
  cases a <;> rfl

/-- The opposite of a non-finite value. -/
@[simp] theorem neg_nonfinite : (-(nonfinite) : Double ℝ) = nonfinite := rfl

/-- The literal `2`. -/
@[simp] theorem two_eq : (2 : Double ℝ) = val 2 :=
  congrArg val (by norm_num)

/-- The literal `4`. -/
@[simp] theorem four_eq : (4 : Double ℝ) = val 4 :=
  congrArg val (by norm_num)

/-- Multiplication of doubles is associative in the model. -/
theorem assoc_mul (a b c : Double ℝ) : a * b * c = a * (b * c) := by
  cases a <;> cases b <;> cases c <;> simp [mul_assoc]

/-- Dividing a difference is subtracting the quotients, non-finite cases
included. -/
theorem div_sub_div_same (x y g : ℝ) :
    (val x / val g - val y / val g : Double ℝ) = (val x - val y) / val g := by
  by_cases hg : g = 0 <;> simp [hg, sub_div]

end Double

/-- Incrementing a wrapped counter is wrapping the incremented value. -/
theorem wrapInt32_succ (n : Int) : wrapInt32 (wrapInt32 n + 1) = wrapInt32 (n + 1) := by
  unfold wrapInt32
  omega

/-- A value in the range of `int` is left alone by the wrap-around. -/
theorem wrapInt32_of_range (n : Int) (hlo : -2147483648 ≤ n) (hhi : n < 2147483648) :
    wrapInt32 n = n := by
  unfold wrapInt32
  omega

namespace ComputeVelocity

/-- The decimated body never touches the counter. -/
theorem sensorBody_msgCount (s : ComputeVelocity ℝ) (msg : JointState ℝ) :
    (sensorBody s msg).1.msgCount = s.msgCount := by
  unfold sensorBody
  by_cases h1 : Int.tmod s.msgCount msgInterval = 0 <;> by_cases h2 : s.msgCount = 0 <;>
    simp [h1, h2]

/-- The callback never touches the configuration. -/
theorem sensorCallback_config (s : ComputeVelocity ℝ) (msg : JointState ℝ) :
    (sensorCallback s msg).1.gearRatio = s.gearRatio
    ∧ (sensorCallback s msg).1.wheelRadius = s.wheelRadius
    ∧ (sensorCallback s msg).1.halfLength = s.halfLength
    ∧ (sensorCallback s msg).1.halfWidth = s.halfWidth
    ∧ (sensorCallback s msg).1.tickResolution = s.tickResolution := by
  unfold sensorCallback sensorBody
  by_cases h1 : Int.tmod s.msgCount msgInterval = 0 <;> by_cases h2 : s.msgCount = 0 <;>
    simp [h1, h2]

/-- Every call increments the counter, with wrap-around. -/
theorem sensorCallback_msgCount (s : ComputeVelocity ℝ) (msg : JointState ℝ) :
    (sensorCallback s msg).1.msgCount = wrapInt32 (s.msgCount + 1) := by
  simp [sensorCallback, sensorBody_msgCount]

/-- The counter after a stream of messages. -/
theorem feed_msgCount (msgs : List (JointState ℝ)) :
    ∀ (s : ComputeVelocity ℝ) (n : Int), s.msgCount = wrapInt32 n →
      (feed s msgs).msgCount = wrapInt32 (n + (msgs.length : Int)) := by
  induction msgs with
  | nil => intro s n h; simpa [feed] using h
  | cons msg rest ih =>
    intro s n h
    have hstep : (sensorCallback s msg).1.msgCount = wrapInt32 (n + 1) := by
      rw [sensorCallback_msgCount, h, wrapInt32_succ]
    have := ih (sensorCallback s msg).1 (n + 1) hstep
    simp only [feed, List.foldl_cons, List.length_cons] at this ⊢
    rw [this]
    congr 1
    push_cast
    ring

/-- The counter of a fresh node after a stream of messages. -/
theorem feed_new_msgCount (g : Int) (wr hl hw : ℝ) (tr : Int) (msgs : List (JointState ℝ)) :
    (feed (new g wr hl hw tr) msgs).msgCount = wrapInt32 (msgs.length : Int) := by
  have h := feed_msgCount msgs (new g wr hl hw tr) 0 (by simp [new, wrapInt32])
  simpa using h

/-- The configuration of a fresh node is kept by any stream of messages. -/
theorem feed_config (msgs : List (JointState ℝ)) :
    ∀ s : ComputeVelocity ℝ,
      (feed s msgs).gearRatio = s.gearRatio
      ∧ (feed s msgs).wheelRadius = s.wheelRadius
      ∧ (feed s msgs).halfLength = s.halfLength
      ∧ (feed s msgs).halfWidth = s.halfWidth
      ∧ (feed s msgs).tickResolution = s.tickResolution := by
  induction msgs with
  | nil => intro s; simp [feed]
  | cons msg rest ih =>
    intro s
    have h1 := ih (sensorCallback s msg).1
    have h2 := sensorCallback_config s msg
    simp only [feed, List.foldl_cons] at h1 ⊢
    refine ⟨h1.1.trans h2.1, h1.2.1.trans h2.2.1, h1.2.2.1.trans h2.2.2.1,
      h1.2.2.2.1.trans h2.2.2.2.1, h1.2.2.2.2.trans h2.2.2.2.2⟩

end ComputeVelocity

namespace ComputeVelocity

/-- Feeding a concatenated stream is feeding its parts in turn. -/
theorem feed_append (s : ComputeVelocity ℝ) (xs ys : List (JointState ℝ)) :
    feed s (xs ++ ys) = feed (feed s xs) ys := by
  simp [feed, List.foldl_append]

/-- A processed message (first or not) becomes the stored reference. -/
theorem sensorCallback_processed (s : ComputeVelocity ℝ) (msg : JointState ℝ)
    (hproc : Int.tmod s.msgCount msgInterval = 0) :
    (sensorCallback s msg).1.ts0 = msg.stamp
    ∧ (sensorCallback s msg).1.ticfl0
        = Double.val (msg.position 0) / Double.val (s.gearRatio : ℝ)
    ∧ (sensorCallback s msg).1.ticfr0
        = Double.val (msg.position 1) / Double.val (s.gearRatio : ℝ)
    ∧ (sensorCallback s msg).1.ticrl0
        = Double.val (msg.position 2) / Double.val (s.gearRatio : ℝ)
    ∧ (sensorCallback s msg).1.ticrr0
        = Double.val (msg.position 3) / Double.val (s.gearRatio : ℝ) := by
  by_cases hz : s.msgCount = 0
  · simp [sensorCallback, sensorBody, if_pos hproc, if_pos hz]
  · simp [sensorCallback, sensorBody, if_pos hproc, if_neg hz]

/-- A message that is not processed publishes nothing and leaves the stored
reference alone. -/
theorem sensorCallback_skipped (s : ComputeVelocity ℝ) (msg : JointState ℝ)
    (hskip : ¬ Int.tmod s.msgCount msgInterval = 0) :
    (sensorCallback s msg).2 = none
    ∧ (sensorCallback s msg).1.ts0 = s.ts0
    ∧ (sensorCallback s msg).1.ticfl0 = s.ticfl0
    ∧ (sensorCallback s msg).1.ticfr0 = s.ticfr0
    ∧ (sensorCallback s msg).1.ticrl0 = s.ticrl0
    ∧ (sensorCallback s msg).1.ticrr0 = s.ticrr0 := by
  simp [sensorCallback, sensorBody, if_neg hskip]

/-- What a processed message that is not the first publishes, as the code
computes it. -/
theorem sensorCallback_published (s : ComputeVelocity ℝ) (msg : JointState ℝ)
    (hproc : Int.tmod s.msgCount msgInterval = 0) (hfirst : s.msgCount ≠ 0) :
    let W : ℝ → Double ℝ → Double ℝ := fun position prevAngle =>
      (Double.val position / Double.val (s.gearRatio : ℝ) - prevAngle)
        / Double.val (deltaToSec msg.stamp s.ts0)
        * 2 * Double.val Real.pi / Double.val (s.tickResolution : ℝ)
    (sensorCallback s msg).2 = some
      { stamp := msg.stamp,
        linear_x := (W (msg.position 0) s.ticfl0 + W (msg.position 1) s.ticfr0
            + W (msg.position 3) s.ticrr0 + W (msg.position 2) s.ticrl0)
          * Double.val s.wheelRadius / 4,
        linear_y := (-W (msg.position 0) s.ticfl0 + W (msg.position 1) s.ticfr0
            + W (msg.position 2) s.ticrl0 - W (msg.position 3) s.ticrr0)
          * Double.val s.wheelRadius / 4,
        angular_z := (-W (msg.position 0) s.ticfl0 + W (msg.position 1) s.ticfr0
            - W (msg.position 2) s.ticrl0 + W (msg.position 3) s.ticrr0)
          * Double.val s.wheelRadius
          / (4 * (Double.val s.wheelRadius + Double.val s.halfLength)) } := by
  intro W
  simp only [sensorCallback, sensorBody, if_pos hproc, if_neg hfirst, libm_pi_real, W]

/-- A run of messages none of which falls on a multiple of 5 leaves the stored
reference alone and advances the counter by its length. -/
theorem feed_skipped (mid : List (JointState ℝ)) :
    ∀ (s : ComputeVelocity ℝ) (n : Nat), s.msgCount = (n : Int) →
      (∀ i, i < mid.length → (n + i) % 5 ≠ 0) → n + mid.length < 2147483648 →
      (feed s mid).msgCount = ((n + mid.length : Nat) : Int)
      ∧ (feed s mid).ts0 = s.ts0
      ∧ (feed s mid).ticfl0 = s.ticfl0
      ∧ (feed s mid).ticfr0 = s.ticfr0
      ∧ (feed s mid).ticrl0 = s.ticrl0
      ∧ (feed s mid).ticrr0 = s.ticrr0 := by
  induction mid with
  | nil =>
    intro s n hn _ _
    simpa [feed] using hn
  | cons msg rest ih =>
    intro s n hn hfree hlen
    simp only [List.length_cons] at hfree hlen
    have hskip : ¬ Int.tmod s.msgCount msgInterval = 0 := by
      have h0 := hfree 0 (by omega)
      rw [hn, msgInterval, Int.tmod_eq_emod (by omega) (by decide)]
      omega
    have hstep := sensorCallback_skipped s msg hskip
    have hcnt : (sensorCallback s msg).1.msgCount = ((n + 1 : Nat) : Int) := by
      rw [sensorCallback_msgCount, hn, wrapInt32_of_range _ (by omega) (by omega)]
      push_cast
      ring
    have hrest := ih (sensorCallback s msg).1 (n + 1) hcnt
      (fun i hi => by
        have := hfree (i + 1) (by omega)
        rw [show n + 1 + i = n + (i + 1) by ring]
        exact this)
      (by omega)
    simp only [feed, List.foldl_cons, List.length_cons] at hrest ⊢
    refine ⟨?_, hrest.2.1.trans hstep.2.1, hrest.2.2.1.trans hstep.2.2.1,
      hrest.2.2.2.1.trans hstep.2.2.2.1, hrest.2.2.2.2.1.trans hstep.2.2.2.2.1,
      hrest.2.2.2.2.2.trans hstep.2.2.2.2.2⟩
    rw [hrest.1]
    push_cast
    ring

/-- The state of a fresh node after a stream that ends with a processed
message `a` (ordinal a multiple of 5) followed by four more messages: the
stored reference is the one of `a`, the counter is the number of messages and
the configuration is the one given to the constructor. -/
theorem feed_after_processed (g : Int) (wr hl hw : ℝ) (tr : Int)
    (pre : List (JointState ℝ)) (a : JointState ℝ) (mid : List (JointState ℝ))
    (hpre : pre.length % 5 = 0) (hmid : mid.length = 4)
    (hlen : pre.length + 5 < 2147483648) :
    (feed (new g wr hl hw tr) (pre ++ a :: mid)).msgCount = ((pre.length + 5 : Nat) : Int)
    ∧ (feed (new g wr hl hw tr) (pre ++ a :: mid)).ts0 = a.stamp
    ∧ (feed (new g wr hl hw tr) (pre ++ a :: mid)).ticfl0
        = Double.val (a.position 0) / Double.val (g : ℝ)
    ∧ (feed (new g wr hl hw tr) (pre ++ a :: mid)).ticfr0
        = Double.val (a.position 1) / Double.val (g : ℝ)
    ∧ (feed (new g wr hl hw tr) (pre ++ a :: mid)).ticrl0
        = Double.val (a.position 2) / Double.val (g : ℝ)
    ∧ (feed (new g wr hl hw tr) (pre ++ a :: mid)).ticrr0
        = Double.val (a.position 3) / Double.val (g : ℝ)
    ∧ (feed (new g wr hl hw tr) (pre ++ a :: mid)).gearRatio = g
    ∧ (feed (new g wr hl hw tr) (pre ++ a :: mid)).wheelRadius = wr
    ∧ (feed (new g wr hl hw tr) (pre ++ a :: mid)).halfLength = hl
    ∧ (feed (new g wr hl hw tr) (pre ++ a :: mid)).tickResolution = tr := by
  have hcfg := feed_config (pre ++ a :: mid) (new g wr hl hw tr)
  have hcfg1 := feed_config pre (new g wr hl hw tr)
  have hsplit : feed (new g wr hl hw tr) (pre ++ a :: mid)
      = feed (sensorCallback (feed (new g wr hl hw tr) pre) a).1 mid := by
    rw [feed_append]
    rfl
  have hc : (feed (new g wr hl hw tr) pre).msgCount = (pre.length : Int) := by
    have h := feed_new_msgCount g wr hl hw tr pre
    rw [wrapInt32_of_range _ (by omega) (by omega)] at h
    exact h
  have hproc : Int.tmod (feed (new g wr hl hw tr) pre).msgCount msgInterval = 0 := by
    rw [hc, msgInterval, Int.tmod_eq_emod (by omega) (by decide)]
    omega
  have hstep := sensorCallback_processed (feed (new g wr hl hw tr) pre) a hproc
  have hcnt : (sensorCallback (feed (new g wr hl hw tr) pre) a).1.msgCount
      = ((pre.length + 1 : Nat) : Int) := by
    rw [sensorCallback_msgCount, hc, wrapInt32_of_range _ (by omega) (by omega)]
    push_cast
    ring
  have hmidfree : ∀ i, i < mid.length → (pre.length + 1 + i) % 5 ≠ 0 := by
    intro i hi
    omega
  have hrest := feed_skipped mid (sensorCallback (feed (new g wr hl hw tr) pre) a).1
    (pre.length + 1) hcnt hmidfree (by omega)
  rw [hcfg1.1] at hstep
  refine ⟨?_, ?_, ?_, ?_, ?_, ?_, hcfg.1, hcfg.2.1, hcfg.2.2.1, hcfg.2.2.2.2⟩
  · rw [hsplit, hrest.1, hmid]
  · rw [hsplit, hrest.2.1, hstep.1]
  · rw [hsplit, hrest.2.2.1, hstep.2.1]; rfl
  · rw [hsplit, hrest.2.2.2.1, hstep.2.2.1]; rfl
  · rw [hsplit, hrest.2.2.2.2.1, hstep.2.2.2.1]; rfl
  · rw [hsplit, hrest.2.2.2.2.2, hstep.2.2.2.2]; rfl

end ComputeVelocity

/-! ## Claims -/

namespace ComputeOdometry

end ComputeOdometry

namespace ComputeOdometry

/-- C2: in Runge-Kutta mode with `ts0` set, `callOdometryMethod` stores and
publishes `theta1 = theta0 + omega*dt`,
`x1 = x0 + v*dt*cos (theta0 + omega*dt/2)` and
`y1 = y0 + v*dt*sin (theta0 + omega*dt/2)` with `dt = stamp - ts0` and
`v = sqrt (vx^2 + vy^2)`, and stores the stamp as the new `ts0`. -/
theorem C2_rungeKutta_update (s : ComputeOdometry ℝ) (msg : TwistStamped ℝ)
    (hmode : s.set_method ≠ 0) (hts : s.ts0 ≠ 0) :
    let dt := computeTimeStamp msg - s.ts0
    let v := Real.sqrt (msg.linear_x ^ 2 + msg.linear_y ^ 2)
    let theta1 := s.theta0 + msg.angular_z * dt
    let x1 := s.x0 + v * dt * Real.cos (s.theta0 + msg.angular_z * dt / 2)
    let y1 := s.y0 + v * dt * Real.sin (s.theta0 + msg.angular_z * dt / 2)
    callOdometryMethod s msg =
      ({ x0 := x1, y0 := y1, theta0 := theta1, ts0 := computeTimeStamp msg,
         set_method := s.set_method },
       some { position_x := x1, position_y := y1, orientation_z := theta1 }) := by
  intro dt v theta1 x1 y1
  simp only [callOdometryMethod, rungeKuttaOdometry, publishOdometry, if_neg hmode, if_neg hts]
  rfl

/-- Witness of C2: from pose `(0,0,0)` with `ts0 = 1` in Runge-Kutta mode, the
sample `t = 2, vx = 3, vy = 4, omega = 0` is answered by `(5, 0, 0)`. -/
theorem C2_rungeKutta_update_witness :
    (callOdometryMethod (ComputeOdometry.mk 0 0 0 1 1 : ComputeOdometry ℝ)
        (twist 2 3 4 0)).2
      = some { position_x := 5, position_y := 0, orientation_z := 0 } := by
  have h := C2_rungeKutta_update (ComputeOdometry.mk 0 0 0 1 1 : ComputeOdometry ℝ)
    (twist 2 3 4 0)
    (by decide) (by norm_num)
  have h5 : Real.sqrt (3 ^ 2 + 4 ^ 2) = 5 := by
    rw [show (3 : ℝ) ^ 2 + 4 ^ 2 = 5 ^ 2 by norm_num]
    exact Real.sqrt_sq (by norm_num)
  rw [h]
  simp [computeTimeStamp, h5]
  norm_num

/-- C4: when `ts0` is `0.0` (the reference is unset), a message in either mode
publishes nothing, leaves `x0`, `y0`, `theta0` (and the mode) untouched and
stores its own stamp as `ts0`; a freshly constructed node is in that case. -/
theorem C4_seed_only (s : ComputeOdometry ℝ) (msg : TwistStamped ℝ) (hts : s.ts0 = 0) :
    callOdometryMethod s msg = ({ s with ts0 := computeTimeStamp msg }, none)
    ∧ (new : ComputeOdometry ℝ).ts0 = 0
    ∧ ∀ m : Int, (parametersCallback (new : ComputeOdometry ℝ) m).ts0 = 0 := by
  refine ⟨?_, rfl, ?_⟩
  · unfold callOdometryMethod eulerOdometry rungeKuttaOdometry
    by_cases hm : s.set_method = 0 <;> simp [hm, hts]
  · intro m
    unfold parametersCallback new
    by_cases hm : m = 0 <;> simp [hm]

/-- Witness of C4: the fresh node receiving the sample `t = 7, vx = 1`. -/
theorem C4_seed_only_witness :
    (callOdometryMethod (new : ComputeOdometry ℝ)
        (twist 7 1 0 0))
      = ({ x0 := 0, y0 := 0, theta0 := 0, ts0 := 7, set_method := 0 }, none) := by
  have h := (C4_seed_only (new : ComputeOdometry ℝ)
    (twist 7 1 0 0) rfl).1
  rw [h]
  simp [new, computeTimeStamp]

/-- C5: `resetCallback` always returns `true`, answers with the pose stored
before the call and leaves the requested pose stored; hence a second reset
answers with the pose requested by the first, in particular `(5,5,1)` after
resetting to `(5,5,1)` and then to `(0,0,0)`. -/
theorem C5_reset_returns_previous (s : ComputeOdometry ℝ) (p q : ResetRequest ℝ) :
    (resetCallback s p).ret = true
    ∧ (resetCallback s p).res = { x_old := s.x0, y_old := s.y0, theta_old := s.theta0 }
    ∧ ((resetCallback s p).self.x0 = p.x_new ∧ (resetCallback s p).self.y0 = p.y_new
        ∧ (resetCallback s p).self.theta0 = p.theta_new)
    ∧ (resetCallback (resetCallback s p).self q).ret = true
    ∧ (resetCallback (resetCallback s p).self q).res
        = { x_old := p.x_new, y_old := p.y_new, theta_old := p.theta_new }
    ∧ ((resetCallback (resetCallback s p).self q).self.x0 = q.x_new
        ∧ (resetCallback (resetCallback s p).self q).self.y0 = q.y_new
        ∧ (resetCallback (resetCallback s p).self q).self.theta0 = q.theta_new)
    ∧ (resetCallback
          (resetCallback s { x_new := 5, y_new := 5, theta_new := 1 }).self
          { x_new := 0, y_new := 0, theta_new := 0 }).res
        = { x_old := 5, y_old := 5, theta_old := 1 }
    ∧ publishOdometry (resetCallback
          (resetCallback s { x_new := 5, y_new := 5, theta_new := 1 }).self
          { x_new := 0, y_new := 0, theta_new := 0 }).self
        = { position_x := 0, position_y := 0, orientation_z := 0 } := by
  simp [resetCallback, publishOdometry]

end ComputeOdometry

namespace ComputeOdometry

/-- C6: `resetCallback` leaves `ts0` and `set_method` as they were (so `ts0`
is still the stamp of the last message received before the reset); with `ts0`
set, the next message is therefore answered, without re-seeding, by the
active method's update of the requested pose over `dt = stamp - ts0`. -/
theorem C6_reset_keeps_time_reference (s : ComputeOdometry ℝ) (p : ResetRequest ℝ)
    (msg : TwistStamped ℝ) :
    (resetCallback s p).self.ts0 = s.ts0
    ∧ (resetCallback s p).self.set_method = s.set_method
    ∧ (∀ (s0 : ComputeOdometry ℝ) (last : TwistStamped ℝ),
        (resetCallback (callOdometryMethod s0 last).1 p).self.ts0 = computeTimeStamp last)
    ∧ (s.ts0 ≠ 0 → s.set_method = 0 →
        (callOdometryMethod (resetCallback s p).self msg).2 = some
          { position_x := p.x_new + (computeTimeStamp msg - s.ts0) *
              (msg.linear_x
                  * Real.cos (p.theta_new + msg.angular_z * (computeTimeStamp msg - s.ts0))
                + msg.linear_y
                  * Real.sin (90 + (p.theta_new + msg.angular_z * (computeTimeStamp msg - s.ts0)))),
            position_y := p.y_new + (computeTimeStamp msg - s.ts0) *
              (msg.linear_x
                  * Real.sin (p.theta_new + msg.angular_z * (computeTimeStamp msg - s.ts0))
                + msg.linear_y
                  * Real.sin (90 + (p.theta_new + msg.angular_z * (computeTimeStamp msg - s.ts0)))),
            orientation_z := p.theta_new + msg.angular_z * (computeTimeStamp msg - s.ts0) })
    ∧ (s.ts0 ≠ 0 → s.set_method ≠ 0 →
        (callOdometryMethod (resetCallback s p).self msg).2 = some
          { position_x := p.x_new
              + Real.sqrt (msg.linear_x ^ 2 + msg.linear_y ^ 2) * (computeTimeStamp msg - s.ts0)
                * Real.cos (p.theta_new + msg.angular_z * (computeTimeStamp msg - s.ts0) / 2),
            position_y := p.y_new
              + Real.sqrt (msg.linear_x ^ 2 + msg.linear_y ^ 2) * (computeTimeStamp msg - s.ts0)
                * Real.sin (p.theta_new + msg.angular_z * (computeTimeStamp msg - s.ts0) / 2),
            orientation_z := p.theta_new + msg.angular_z * (computeTimeStamp msg - s.ts0) }) := by
  refine ⟨rfl, rfl, ?_, ?_, ?_⟩
  · intro s0 last
    exact callOdometryMethod_ts0 s0 last
  · intro hts hmode
    exact euler_published (resetCallback s p).self msg hmode hts
  · intro hts hmode
    exact rungeKutta_published (resetCallback s p).self msg hmode hts

/-- Witness of C6: Runge-Kutta node with `ts0 = 1`, reset to `(5,5,0)`, then
the sample `t = 3, vx = 3, vy = 4, omega = 0`: the answer is `(15, 5, 0)`. -/
theorem C6_reset_keeps_time_reference_witness :
    (callOdometryMethod
        (resetCallback
          (ComputeOdometry.mk 0 0 0 1 1 : ComputeOdometry ℝ)
          { x_new := 5, y_new := 5, theta_new := 0 }).self
        (twist 3 3 4 0)).2
      = some { position_x := 15, position_y := 5, orientation_z := 0 } := by
  have h := (C6_reset_keeps_time_reference
    (ComputeOdometry.mk 0 0 0 1 1 : ComputeOdometry ℝ)
    { x_new := 5, y_new := 5, theta_new := 0 }
    (twist 3 3 4 0)).2.2.2.2
    (by norm_num) (by decide)
  have h5 : Real.sqrt (3 ^ 2 + 4 ^ 2) = 5 := by
    rw [show (3 : ℝ) ^ 2 + 4 ^ 2 = 5 ^ 2 by norm_num]
    exact Real.sqrt_sq (by norm_num)
  rw [h]
  simp [computeTimeStamp, h5]
  norm_num

end ComputeOdometry

namespace ComputeOdometry

end ComputeOdometry

namespace ComputeVelocity

/-- C9: on a processed message that is not the first (`msgCount` a nonzero
multiple of `msgInterval`), with `dt` the difference of the stamps in seconds
and, per wheel, `angle = position / gearRatio` and
`w = (angle - prevAngle) / dt * 2π / tickResolution`, the published velocity is
`vx = (w_fl + w_fr + w_rr + w_rl) * wheelRadius / 4`,
`vy = (-w_fl + w_fr + w_rl - w_rr) * wheelRadius / 4`,
`omega = (-w_fl + w_fr - w_rl + w_rr) * wheelRadius / (4*(wheelRadius + halfLength))`,
the wheels being `position[0..3]` = front-left, front-right, rear-left,
rear-right; the message carries the stamp of the input.  First as an equation
of doubles (a zero divisor makes both sides non-finite), then, when the stored
angles are real numbers and no divisor is zero, as the real numbers the
formulas denote. -/
theorem C9_velocity_formula (s : ComputeVelocity ℝ) (msg : JointState ℝ)
    (hproc : Int.tmod s.msgCount msgInterval = 0) (hfirst : s.msgCount ≠ 0) :
    let t : ℝ := (msg.stamp.sec : ℝ) + (msg.stamp.nsec : ℝ) * (10 : ℝ) ^ (-9 : ℤ)
    let t0 : ℝ := (s.ts0.sec : ℝ) + (s.ts0.nsec : ℝ) * (10 : ℝ) ^ (-9 : ℤ)
    let dt : ℝ := t - t0
    let W : ℝ → Double ℝ → Double ℝ := fun position prevAngle =>
      (Double.val position / Double.val (s.gearRatio : ℝ) - prevAngle) / Double.val dt
        * (2 * Double.val Real.pi) / Double.val (s.tickResolution : ℝ)
    let w : ℝ → ℝ → ℝ := fun position prevAngle =>
      (position / (s.gearRatio : ℝ) - prevAngle) / dt * (2 * Real.pi)
        / (s.tickResolution : ℝ)
    (sensorCallback s msg).2 = some
      { stamp := msg.stamp,
        linear_x := (W (msg.position 0) s.ticfl0 + W (msg.position 1) s.ticfr0
            + W (msg.position 3) s.ticrr0 + W (msg.position 2) s.ticrl0)
          * Double.val s.wheelRadius / 4,
        linear_y := (-W (msg.position 0) s.ticfl0 + W (msg.position 1) s.ticfr0
            + W (msg.position 2) s.ticrl0 - W (msg.position 3) s.ticrr0)
          * Double.val s.wheelRadius / 4,
        angular_z := (-W (msg.position 0) s.ticfl0 + W (msg.position 1) s.ticfr0
            - W (msg.position 2) s.ticrl0 + W (msg.position 3) s.ticrr0)
          * Double.val s.wheelRadius
          / (4 * (Double.val s.wheelRadius + Double.val s.halfLength)) }
    ∧ ∀ p_fl p_fr p_rl p_rr : ℝ,
        s.ticfl0 = Double.val p_fl → s.ticfr0 = Double.val p_fr →
        s.ticrl0 = Double.val p_rl → s.ticrr0 = Double.val p_rr →
        s.gearRatio ≠ 0 → dt ≠ 0 → s.tickResolution ≠ 0 →
        s.wheelRadius + s.halfLength ≠ 0 →
        (sensorCallback s msg).2 = some
          { stamp := msg.stamp,
            linear_x := Double.val
              ((w (msg.position 0) p_fl + w (msg.position 1) p_fr
                  + w (msg.position 3) p_rr + w (msg.position 2) p_rl)
                * s.wheelRadius / 4),
            linear_y := Double.val
              ((-w (msg.position 0) p_fl + w (msg.position 1) p_fr
                  + w (msg.position 2) p_rl - w (msg.position 3) p_rr)
                * s.wheelRadius / 4),
            angular_z := Double.val
              ((-w (msg.position 0) p_fl + w (msg.position 1) p_fr
                  - w (msg.position 2) p_rl + w (msg.position 3) p_rr)
                * s.wheelRadius / (4 * (s.wheelRadius + s.halfLength))) } := by
  intro t t0 dt W w
  have hdt : deltaToSec msg.stamp s.ts0 = dt := by
    simp only [deltaToSec, dt, t, t0]; ring
  have hfirstpart : (sensorCallback s msg).2 = some
      { stamp := msg.stamp,
        linear_x := (W (msg.position 0) s.ticfl0 + W (msg.position 1) s.ticfr0
            + W (msg.position 3) s.ticrr0 + W (msg.position 2) s.ticrl0)
          * Double.val s.wheelRadius / 4,
        linear_y := (-W (msg.position 0) s.ticfl0 + W (msg.position 1) s.ticfr0
            + W (msg.position 2) s.ticrl0 - W (msg.position 3) s.ticrr0)
          * Double.val s.wheelRadius / 4,
        angular_z := (-W (msg.position 0) s.ticfl0 + W (msg.position 1) s.ticfr0
            - W (msg.position 2) s.ticrl0 + W (msg.position 3) s.ticrr0)
          * Double.val s.wheelRadius
          / (4 * (Double.val s.wheelRadius + Double.val s.halfLength)) } := by
    simp only [sensorCallback, sensorBody, if_pos hproc, if_neg hfirst, hdt, libm_pi_real, W,
      Double.assoc_mul]
  refine ⟨hfirstpart, ?_⟩
  intro p_fl p_fr p_rl p_rr h1 h2 h3 h4 hg hd htr hrl
  have hg1 : (s.gearRatio : ℝ) ≠ 0 := Int.cast_ne_zero.mpr hg
  have htr1 : (s.tickResolution : ℝ) ≠ 0 := Int.cast_ne_zero.mpr htr
  rw [hfirstpart]
  simp [W, w, h1, h2, h3, h4, hg1, hd, htr1, hrl]

/-- Witness of C9: default configuration (5, 0.07, 0.2, 0.169, 42), counter 5,
zero references, and a message stamped 1 s with all four positions 210: every
wheel turns at `2π`, so `vx = 0.14 π`, `vy = 0`, `omega = 0`. -/
theorem C9_velocity_formula_witness :
    (sensorCallback
        (running 0.07 0.2 0 0 5 : ComputeVelocity ℝ)
        (ticks 1 210)).2
      = some { stamp := { sec := 1, nsec := 0 }, linear_x := Double.val (0.14 * Real.pi),
               linear_y := Double.val 0, angular_z := Double.val 0 } := by
  have h := (C9_velocity_formula
    (running 0.07 0.2 0 0 5 : ComputeVelocity ℝ)
    (ticks 1 210)
    (by decide) (by decide)).2 0 0 0 0 rfl rfl rfl rfl (by decide) (by norm_num)
    (by decide) (by norm_num)
  rw [h]
  simp
  ring

end ComputeVelocity

namespace ComputeVelocity

/-- C10 (as stated, refuted): on a fresh node with the default configuration,
after 2147483650 messages the `int` counter has wrapped to -2147483646, so the
message of ordinal 2147483650 (a multiple of 5) is not processed, and the one
of ordinal 2147483651 (not a multiple of 5) is processed and answered. -/
theorem C10_decimation_phase_shifts :
    (feed (new 5 0.07 0.2 0.169 42 : ComputeVelocity ℝ)
        (List.replicate 2147483650 (ticks 1 0))
      ).msgCount = -2147483646
    ∧ (sensorCallback
        (feed (new 5 0.07 0.2 0.169 42 : ComputeVelocity ℝ)
          (List.replicate 2147483650
            (ticks 1 0)))
        (ticks 2 0)).2 = none
    ∧ (sensorCallback
        (feed (new 5 0.07 0.2 0.169 42 : ComputeVelocity ℝ)
          (List.replicate 2147483651
            (ticks 1 0)))
        (ticks 2 0)).2.isSome = true := by
  have hc0 : (feed (new 5 0.07 0.2 0.169 42 : ComputeVelocity ℝ)
      (List.replicate 2147483650
        (ticks 1 0))).msgCount
      = -2147483646 := by
    rw [feed_new_msgCount, List.length_replicate]
    decide
  have hc1 : (feed (new 5 0.07 0.2 0.169 42 : ComputeVelocity ℝ)
      (List.replicate 2147483651
        (ticks 1 0))).msgCount
      = -2147483645 := by
    rw [feed_new_msgCount, List.length_replicate]
    decide
  refine ⟨hc0, ?_, ?_⟩
  · generalize feed (new 5 0.07 0.2 0.169 42 : ComputeVelocity ℝ)
      (List.replicate 2147483650 _) = s at hc0 ⊢
    have hg : ¬ Int.tmod s.msgCount msgInterval = 0 := by rw [hc0]; decide
    simp only [sensorCallback, sensorBody, if_neg hg]
  · generalize feed (new 5 0.07 0.2 0.169 42 : ComputeVelocity ℝ)
      (List.replicate 2147483651 _) = s at hc1 ⊢
    have hg : Int.tmod s.msgCount msgInterval = 0 := by rw [hc1]; decide
    have hz : s.msgCount ≠ 0 := by rw [hc1]; decide
    simp only [sensorCallback, sensorBody, if_pos hg, if_neg hz]
    rfl

/-- C10 (amended): on a fresh node fed a stream of at most 2147483647
(`2^31 - 1`) messages, the counter before the message of ordinal `i` is `i`
and after it `i + 1`; the message is processed exactly when `i` is a multiple
of 5; when it is not, nothing is published and `ts0` and the four reference
angles stay as they were; when it is, `ts0` and the reference angles become
those of the message, and a velocity is published unless `i = 0`. -/
theorem C10_decimation (g : Int) (wr hl hw : ℝ) (tr : Int) (pre : List (JointState ℝ))
    (msg : JointState ℝ) (hlen : pre.length < 2147483647) :
    let s := feed (new g wr hl hw tr) pre
    s.msgCount = (pre.length : Int)
    ∧ (sensorCallback s msg).1.msgCount = (pre.length : Int) + 1
    ∧ (Int.tmod s.msgCount msgInterval = 0 ↔ pre.length % 5 = 0)
    ∧ (pre.length % 5 ≠ 0 →
        (sensorCallback s msg).2 = none
        ∧ (sensorCallback s msg).1.ts0 = s.ts0
        ∧ (sensorCallback s msg).1.ticfl0 = s.ticfl0
        ∧ (sensorCallback s msg).1.ticfr0 = s.ticfr0
        ∧ (sensorCallback s msg).1.ticrl0 = s.ticrl0
        ∧ (sensorCallback s msg).1.ticrr0 = s.ticrr0)
    ∧ (pre.length % 5 = 0 →
        (sensorCallback s msg).1.ts0 = msg.stamp
        ∧ (sensorCallback s msg).1.ticfl0 = Double.val (msg.position 0) / Double.val (g : ℝ)
        ∧ (sensorCallback s msg).1.ticfr0 = Double.val (msg.position 1) / Double.val (g : ℝ)
        ∧ (sensorCallback s msg).1.ticrl0 = Double.val (msg.position 2) / Double.val (g : ℝ)
        ∧ (sensorCallback s msg).1.ticrr0 = Double.val (msg.position 3) / Double.val (g : ℝ)
        ∧ ((sensorCallback s msg).2.isSome = true ↔ pre.length ≠ 0)) := by
  intro s
  have hc : s.msgCount = (pre.length : Int) := by
    have h := feed_new_msgCount g wr hl hw tr pre
    rw [wrapInt32_of_range _ (by omega) (by omega)] at h
    exact h
  have hg : s.gearRatio = g := (feed_config pre (new g wr hl hw tr)).1
  have hiff : Int.tmod s.msgCount msgInterval = 0 ↔ pre.length % 5 = 0 := by
    rw [hc, msgInterval, Int.tmod_eq_emod (by omega) (by decide)]
    omega
  refine ⟨hc, ?_, hiff, ?_, ?_⟩
  · rw [sensorCallback_msgCount, hc, wrapInt32_of_range _ (by omega) (by omega)]
  · intro hnot
    have hn : ¬ Int.tmod s.msgCount msgInterval = 0 := fun h => hnot (hiff.mp h)
    simp [sensorCallback, sensorBody, if_neg hn]
  · intro hmul
    have hp : Int.tmod s.msgCount msgInterval = 0 := hiff.mpr hmul
    by_cases hz : s.msgCount = 0
    · have hz0 : pre.length = 0 := by omega
      simp only [sensorCallback, sensorBody, if_pos hp, if_pos hz, hg]
      simp [hz0]
    · have hz0 : pre.length ≠ 0 := by omega
      simp only [sensorCallback, sensorBody, if_pos hp, if_neg hz, hg]
      simp [hz0]

/-- Witness of C10: the fresh default node fed two messages, then a third
(ordinal 2), which is not processed. -/
theorem C10_decimation_witness :
    (sensorCallback
        (feed (new 5 0.07 0.2 0.169 42 : ComputeVelocity ℝ)
          [(ticks 1 10),
           (ticks 2 20)])
        (ticks 3 30)).2 = none
    ∧ (sensorCallback
        (feed (new 5 0.07 0.2 0.169 42 : ComputeVelocity ℝ)
          [(ticks 1 10),
           (ticks 2 20)])
        (ticks 3 30)).1.msgCount = 3 := by
  have h := C10_decimation 5 0.07 0.2 0.169 42
    [(ticks 1 10),
     (ticks 2 20)]
    (ticks 3 30) (by decide)
  exact ⟨(h.2.2.2.1 (by decide)).1, h.2.1⟩

end ComputeVelocity

namespace ComputeOdometry

end ComputeOdometry

namespace ComputeOdometry

/-- C14: in Euler mode with `ts0` set and heading `theta0 = 0`, a sample with
`vy = 0` and `omega = 0` moves the pose by `vx*dt` along x and leaves y and the
heading as they were; the new pose is both stored and published. -/
theorem C14_euler_straight_line (s : ComputeOdometry ℝ) (msg : TwistStamped ℝ)
    (hmode : s.set_method = 0) (hts : s.ts0 ≠ 0) (htheta : s.theta0 = 0)
    (hvy : msg.linear_y = 0) (hom : msg.angular_z = 0) :
    callOdometryMethod s msg =
      ({ x0 := s.x0 + msg.linear_x * (computeTimeStamp msg - s.ts0), y0 := s.y0,
         theta0 := s.theta0, ts0 := computeTimeStamp msg, set_method := s.set_method },
       some { position_x := s.x0 + msg.linear_x * (computeTimeStamp msg - s.ts0),
              position_y := s.y0, orientation_z := s.theta0 }) := by
  simp only [callOdometryMethod, eulerOdometry, publishOdometry, if_pos hmode, if_neg hts]
  simp [htheta, hvy, hom, mul_comm]

/-- Witness of C14: from pose `(0,0,0)` with `ts0 = 1`, the sample
`t = 2, vx = 1, vy = 0, omega = 0` (so `dt = 1`) gives the pose `(1, 0, 0)`. -/
theorem C14_euler_straight_line_witness :
    (callOdometryMethod (ComputeOdometry.mk 0 0 0 1 0 : ComputeOdometry ℝ)
        (twist 2 1 0 0)).2
      = some { position_x := 1, position_y := 0, orientation_z := 0 } := by
  have h := C14_euler_straight_line (ComputeOdometry.mk 0 0 0 1 0 : ComputeOdometry ℝ)
    (twist 2 1 0 0)
    rfl (by norm_num) rfl rfl rfl
  rw [h]
  simp [computeTimeStamp]
  norm_num

end ComputeOdometry

namespace ComputeOdometry

/-- C17: in either mode a message is answered by a pose exactly when `ts0` is
different from `0.0` at the start of the call; with `ts0 = 0.0` the call only
overwrites `ts0` with the stamp of the message.  Hence after a message whose
stamp is exactly 0, received by any state (fresh or not), the following
message publishes nothing and leaves `x0`, `y0`, `theta0` as they were. -/
theorem C17_zero_stamp_reseeds (s : ComputeOdometry ℝ) (a b : TwistStamped ℝ) :
    ((callOdometryMethod s b).2.isSome = true ↔ s.ts0 ≠ 0)
    ∧ (s.ts0 = 0 →
        callOdometryMethod s b = ({ s with ts0 := computeTimeStamp b }, none))
    ∧ (computeTimeStamp a = 0 →
        (callOdometryMethod (callOdometryMethod s a).1 b).2 = none
        ∧ (callOdometryMethod (callOdometryMethod s a).1 b).1.x0
            = (callOdometryMethod s a).1.x0
        ∧ (callOdometryMethod (callOdometryMethod s a).1 b).1.y0
            = (callOdometryMethod s a).1.y0
        ∧ (callOdometryMethod (callOdometryMethod s a).1 b).1.theta0
            = (callOdometryMethod s a).1.theta0
        ∧ (callOdometryMethod (callOdometryMethod s a).1 b).1.ts0 = computeTimeStamp b) := by
  have hseed : ∀ t : ComputeOdometry ℝ, t.ts0 = 0 →
      callOdometryMethod t b = ({ t with ts0 := computeTimeStamp b }, none) := by
    intro t ht
    unfold callOdometryMethod eulerOdometry rungeKuttaOdometry
    by_cases hm : t.set_method = 0 <;> simp [hm, ht]
  refine ⟨callOdometryMethod_isSome s b, hseed s, ?_⟩
  intro ha
  have hts : (callOdometryMethod s a).1.ts0 = 0 := by
    rw [callOdometryMethod_ts0]; exact ha
  rw [hseed _ hts]
  exact ⟨rfl, rfl, rfl, rfl, rfl⟩

/-- Witness of C17: an Euler node at `(3, 7, 0)` with `ts0 = 1` receives a
sample stamped 0 and then the sample `t = 5, vx = 1`: the second one is not
answered. -/
theorem C17_zero_stamp_reseeds_witness :
    (callOdometryMethod
        (callOdometryMethod (ComputeOdometry.mk 3 7 0 1 0 : ComputeOdometry ℝ)
        (twist 0 0 0 0)).1
        (twist 5 1 0 0)).2
      = none :=
  ((C17_zero_stamp_reseeds (ComputeOdometry.mk 3 7 0 1 0 : ComputeOdometry ℝ)
    (twist 0 0 0 0)
    (twist 5 1 0 0)).2.2
    (by simp [computeTimeStamp])).1

/-- C18: in Runge-Kutta mode with `ts0` set, changing the sign of `vx`, of
`vy` or of both changes neither the stored state nor the published pose: the
velocities enter only through `vx^2 + vy^2`. -/
theorem C18_rungeKutta_sign_blind (s : ComputeOdometry ℝ) (msg : TwistStamped ℝ)
    (hmode : s.set_method ≠ 0) (hts : s.ts0 ≠ 0) :
    callOdometryMethod s { msg with linear_x := -msg.linear_x } = callOdometryMethod s msg
    ∧ callOdometryMethod s { msg with linear_y := -msg.linear_y } = callOdometryMethod s msg
    ∧ callOdometryMethod s { msg with linear_x := -msg.linear_x, linear_y := -msg.linear_y }
        = callOdometryMethod s msg
    ∧ (∀ other : TwistStamped ℝ, other.stamp = msg.stamp → other.angular_z = msg.angular_z →
        other.linear_x ^ 2 + other.linear_y ^ 2 = msg.linear_x ^ 2 + msg.linear_y ^ 2 →
        callOdometryMethod s other = callOdometryMethod s msg) := by
  have key : ∀ other : TwistStamped ℝ, other.stamp = msg.stamp →
      other.angular_z = msg.angular_z →
      other.linear_x ^ 2 + other.linear_y ^ 2 = msg.linear_x ^ 2 + msg.linear_y ^ 2 →
      callOdometryMethod s other = callOdometryMethod s msg := by
    intro other hst hom hsq
    simp only [callOdometryMethod, rungeKuttaOdometry, publishOdometry, computeTimeStamp,
      if_neg hmode, if_neg hts, hst, hom, hsq]
  refine ⟨key _ rfl rfl ?_, key _ rfl rfl ?_, key _ rfl rfl ?_, key⟩
  · simp
  · simp
  · simp

/-- Witness of C18: from pose `(0,0,0)` with `ts0 = 1`, the reversing sample
`t = 2, vx = -3, vy = 4, omega = 0` is answered by `(5, 0, 0)`, as the forward
sample `vx = 3, vy = 4` is. -/
theorem C18_rungeKutta_sign_blind_witness :
    (callOdometryMethod (ComputeOdometry.mk 0 0 0 1 1 : ComputeOdometry ℝ)
        (twist 2 (-3) 4 0)).2
      = some { position_x := 5, position_y := 0, orientation_z := 0 } := by
  have h : callOdometryMethod (ComputeOdometry.mk 0 0 0 1 1 : ComputeOdometry ℝ)
      (twist 2 (-3) 4 0)
      = callOdometryMethod (ComputeOdometry.mk 0 0 0 1 1 : ComputeOdometry ℝ) (twist 2 3 4 0) :=
    (C18_rungeKutta_sign_blind (ComputeOdometry.mk 0 0 0 1 1 : ComputeOdometry ℝ)
      (twist 2 3 4 0) (by decide) (by norm_num)).1
  have h5 : Real.sqrt (3 ^ 2 + 4 ^ 2) = 5 := by
    rw [show (3 : ℝ) ^ 2 + 4 ^ 2 = 5 ^ 2 by norm_num]
    exact Real.sqrt_sq (by norm_num)
  rw [h]
  simp [callOdometryMethod, rungeKuttaOdometry, publishOdometry, computeTimeStamp, h5]
  norm_num

end ComputeOdometry

namespace ComputeVelocity

/-- C11: the first message received by a freshly constructed node publishes
nothing and stores its stamp as `ts0` and, for each of the four wheels,
`position / gearRatio` as the reference angle (the real number
`position / gearRatio` when `gearRatio` is not zero). -/
theorem C11_first_update_seeds (g : Int) (wr hl hw : ℝ) (tr : Int) (msg : JointState ℝ) :
    (sensorCallback (new g wr hl hw tr) msg).2 = none
    ∧ (sensorCallback (new g wr hl hw tr) msg).1.ts0 = msg.stamp
    ∧ (sensorCallback (new g wr hl hw tr) msg).1.ticfl0
        = Double.val (msg.position 0) / Double.val (g : ℝ)
    ∧ (sensorCallback (new g wr hl hw tr) msg).1.ticfr0
        = Double.val (msg.position 1) / Double.val (g : ℝ)
    ∧ (sensorCallback (new g wr hl hw tr) msg).1.ticrl0
        = Double.val (msg.position 2) / Double.val (g : ℝ)
    ∧ (sensorCallback (new g wr hl hw tr) msg).1.ticrr0
        = Double.val (msg.position 3) / Double.val (g : ℝ)
    ∧ (g ≠ 0 →
        (sensorCallback (new g wr hl hw tr) msg).1.ticfl0
          = Double.val (msg.position 0 / (g : ℝ))
        ∧ (sensorCallback (new g wr hl hw tr) msg).1.ticfr0
          = Double.val (msg.position 1 / (g : ℝ))
        ∧ (sensorCallback (new g wr hl hw tr) msg).1.ticrl0
          = Double.val (msg.position 2 / (g : ℝ))
        ∧ (sensorCallback (new g wr hl hw tr) msg).1.ticrr0
          = Double.val (msg.position 3 / (g : ℝ))) := by
  have h0 : Int.tmod (new g wr hl hw tr : ComputeVelocity ℝ).msgCount msgInterval = 0 := by
    show Int.tmod 0 5 = 0
    decide
  have hz : (new g wr hl hw tr : ComputeVelocity ℝ).msgCount = 0 := rfl
  have hp := sensorCallback_processed (new g wr hl hw tr) msg h0
  have hgr : (new g wr hl hw tr : ComputeVelocity ℝ).gearRatio = g := rfl
  rw [hgr] at hp
  refine ⟨?_, hp.1, hp.2.1, hp.2.2.1, hp.2.2.2.1, hp.2.2.2.2, ?_⟩
  · simp only [sensorCallback, sensorBody, if_pos h0, if_pos hz]
  · intro hg
    have hg1 : (g : ℝ) ≠ 0 := Int.cast_ne_zero.mpr hg
    rw [hp.2.1, hp.2.2.1, hp.2.2.2.1, hp.2.2.2.2]
    simp [hg1]

/-- Witness of C11: the default node receiving the positions
`(10, 20, 30, 40)` stamped 7 s stores the angles `(2, 4, 6, 8)`. -/
theorem C11_first_update_seeds_witness :
    (sensorCallback (new 5 0.07 0.2 0.169 42 : ComputeVelocity ℝ)
        { stamp := { sec := 7, nsec := 0 }, position := ![10, 20, 30, 40] }).1.ticfl0
      = Double.val 2
    ∧ (sensorCallback (new 5 0.07 0.2 0.169 42 : ComputeVelocity ℝ)
        { stamp := { sec := 7, nsec := 0 }, position := ![10, 20, 30, 40] }).1.ticrr0
      = Double.val 8 := by
  have h := (C11_first_update_seeds 5 0.07 0.2 0.169 42
    { stamp := { sec := 7, nsec := 0 }, position := ![10, 20, 30, 40] }).2.2.2.2.2.2
    (by decide)
  rw [h.1, h.2.2.2]
  constructor
  · congr 1
    norm_num
  · congr 1
    simp
    norm_num

end ComputeVelocity

namespace ComputeVelocity

/-- C12 (as stated, refuted): on a fresh default node the message of ordinal
`5k = 2147483650` (`k = 429496730`) publishes nothing, the `int` counter
having wrapped around. -/
theorem C12_sample_2147483650_unanswered :
    (sensorCallback
        (feed (new 5 0.07 0.2 0.169 42 : ComputeVelocity ℝ)
          (List.replicate 2147483650
            (ticks 1 10)))
        (ticks 9 20)).2 = none := by
  have hc : (feed (new 5 0.07 0.2 0.169 42 : ComputeVelocity ℝ)
      (List.replicate 2147483650
        (ticks 1 10))).msgCount
      = -2147483646 := by
    rw [feed_new_msgCount, List.length_replicate]
    decide
  generalize feed (new 5 0.07 0.2 0.169 42 : ComputeVelocity ℝ)
    (List.replicate 2147483650 _) = s at hc ⊢
  have hg : ¬ Int.tmod s.msgCount msgInterval = 0 := by rw [hc]; decide
  exact (sensorCallback_skipped s _ hg).1

/-- C12 (amended): on a fresh node, for a message `b` of ordinal `5k` with
`k ≥ 1` and `5k ≤ 2^31 - 1`, `a` being the message of ordinal `5(k-1)` (so
four messages lie between them), the call on `b` publishes a velocity that
carries the stamp of `b` and is the kinematic formula applied to the angle
differences `(position b - position a) / gearRatio` and to
`dt = stamp b - stamp a`; it leaves the stamp and the angles of `b` as the
stored reference.  The formula is given as an equation of doubles and, when no
divisor is zero, as the real numbers it denotes. -/
theorem C12_processed_uses_previous_processed (g : Int) (wr hl hw : ℝ) (tr : Int)
    (pre : List (JointState ℝ)) (a : JointState ℝ) (mid : List (JointState ℝ))
    (b : JointState ℝ)
    (hpre : pre.length % 5 = 0) (hmid : mid.length = 4)
    (hlen : pre.length + 5 < 2147483648) :
    let s := feed (new g wr hl hw tr) (pre ++ a :: mid)
    let t_b : ℝ := (b.stamp.sec : ℝ) + (b.stamp.nsec : ℝ) * (10 : ℝ) ^ (-9 : ℤ)
    let t_a : ℝ := (a.stamp.sec : ℝ) + (a.stamp.nsec : ℝ) * (10 : ℝ) ^ (-9 : ℤ)
    let dt : ℝ := t_b - t_a
    let W : Fin 4 → Double ℝ := fun i =>
      (Double.val (b.position i) - Double.val (a.position i)) / Double.val (g : ℝ)
        / Double.val dt * (2 * Double.val Real.pi) / Double.val (tr : ℝ)
    let w : Fin 4 → ℝ := fun i =>
      (b.position i - a.position i) / (g : ℝ) / dt * (2 * Real.pi) / (tr : ℝ)
    (sensorCallback s b).2 = some
      { stamp := b.stamp,
        linear_x := (W 0 + W 1 + W 3 + W 2) * Double.val wr / 4,
        linear_y := (-W 0 + W 1 + W 2 - W 3) * Double.val wr / 4,
        angular_z := (-W 0 + W 1 - W 2 + W 3) * Double.val wr
          / (4 * (Double.val wr + Double.val hl)) }
    ∧ (sensorCallback s b).1.ts0 = b.stamp
    ∧ (sensorCallback s b).1.ticfl0 = Double.val (b.position 0) / Double.val (g : ℝ)
    ∧ (sensorCallback s b).1.ticfr0 = Double.val (b.position 1) / Double.val (g : ℝ)
    ∧ (sensorCallback s b).1.ticrl0 = Double.val (b.position 2) / Double.val (g : ℝ)
    ∧ (sensorCallback s b).1.ticrr0 = Double.val (b.position 3) / Double.val (g : ℝ)
    ∧ (g ≠ 0 → dt ≠ 0 → tr ≠ 0 → wr + hl ≠ 0 →
        (sensorCallback s b).2 = some
          { stamp := b.stamp,
            linear_x := Double.val ((w 0 + w 1 + w 3 + w 2) * wr / 4),
            linear_y := Double.val ((-w 0 + w 1 + w 2 - w 3) * wr / 4),
            angular_z := Double.val ((-w 0 + w 1 - w 2 + w 3) * wr / (4 * (wr + hl))) }) := by
  intro s t_b t_a dt W w
  obtain ⟨hcnt, hts, h1, h2, h3, h4, hgr, hwr, hhl, htr⟩ :=
    feed_after_processed g wr hl hw tr pre a mid hpre hmid hlen
  have hproc : Int.tmod s.msgCount msgInterval = 0 := by
    show Int.tmod (feed (new g wr hl hw tr) (pre ++ a :: mid)).msgCount msgInterval = 0
    rw [hcnt, msgInterval, Int.tmod_eq_emod (by omega) (by decide)]
    omega
  have hfirst : s.msgCount ≠ 0 := by
    show (feed (new g wr hl hw tr) (pre ++ a :: mid)).msgCount ≠ 0
    rw [hcnt]
    omega
  have hdt : deltaToSec b.stamp a.stamp = dt := by
    simp only [deltaToSec, dt, t_b, t_a]; ring
  have hpub := sensorCallback_published s b hproc hfirst
  have hstore := sensorCallback_processed s b hproc
  have hfirstpart : (sensorCallback s b).2 = some
      { stamp := b.stamp,
        linear_x := (W 0 + W 1 + W 3 + W 2) * Double.val wr / 4,
        linear_y := (-W 0 + W 1 + W 2 - W 3) * Double.val wr / 4,
        angular_z := (-W 0 + W 1 - W 2 + W 3) * Double.val wr
          / (4 * (Double.val wr + Double.val hl)) } := by
    rw [hpub]
    simp only [s, hts, h1, h2, h3, h4, hgr, hwr, hhl, htr, hdt, W,
      Double.div_sub_div_same, Double.assoc_mul]
  refine ⟨hfirstpart, hstore.1, ?_, ?_, ?_, ?_, ?_⟩
  · rw [hstore.2.1]; simp only [s, hgr]
  · rw [hstore.2.2.1]; simp only [s, hgr]
  · rw [hstore.2.2.2.1]; simp only [s, hgr]
  · rw [hstore.2.2.2.2]; simp only [s, hgr]
  · intro hg hd htr0 hrl
    have hg1 : (g : ℝ) ≠ 0 := Int.cast_ne_zero.mpr hg
    have htr1 : (tr : ℝ) ≠ 0 := Int.cast_ne_zero.mpr htr0
    rw [hfirstpart]
    simp [W, w, hg1, hd, htr1, hrl]

/-- Witness of C12: the default node fed ten stationary messages at 0 s
(positions 0) and then, as the message of ordinal 10, one stamped 1 s with all
positions 210: since the message of ordinal 5 is the reference, every wheel
turns at `2π` and `vx = 0.14 π`, `vy = 0`, `omega = 0`. -/
theorem C12_processed_uses_previous_processed_witness :
    (sensorCallback
        (feed (new 5 0.07 0.2 0.169 42 : ComputeVelocity ℝ)
          (List.replicate 5 (ticks 0 0)
            ++ (ticks 0 0)
              :: List.replicate 4
                  (ticks 0 0)))
        (ticks 1 210)).2
      = some { stamp := { sec := 1, nsec := 0 }, linear_x := Double.val (0.14 * Real.pi),
               linear_y := Double.val 0, angular_z := Double.val 0 } := by
  have h := (C12_processed_uses_previous_processed 5 0.07 0.2 0.169 42
    (List.replicate 5 (ticks 0 0))
    (ticks 0 0)
    (List.replicate 4 (ticks 0 0))
    (ticks 1 210)
    (by simp) (by simp) (by simp)).2.2.2.2.2.2
    (by decide) (by norm_num) (by decide) (by norm_num)
  rw [h]
  simp
  ring

end ComputeVelocity

namespace ComputeVelocity

/-- C13 (as stated, refuted): two processed non-first messages whose four
computed wheel rates are equal and whose `wheelRadius` is not zero, yet
`omega`, respectively `vy`, is not 0.  First with `wheelRadius = 0.2`,
`halfLength = -0.2` and stationary wheels (all rates 0): `omega` is `0/0`.
Then with the default configuration, the same stamp as the reference
(`dt = 0`) and all four wheels advanced by the same amount (all rates the
same `1/0`): `vx`, `vy` and `omega` are not finite. -/
theorem C13_equal_rates_nonzero_result :
    (sensorCallback
        (running 0.2 (-0.2) 0 0 5 : ComputeVelocity ℝ)
        (ticks 1 0)).2
      = some { stamp := { sec := 1, nsec := 0 }, linear_x := Double.val 0,
               linear_y := Double.val 0, angular_z := Double.nonfinite }
    ∧ (sensorCallback
        (running 0.07 0.2 0 1 5 : ComputeVelocity ℝ)
        (ticks 1 5)).2
      = some { stamp := { sec := 1, nsec := 0 }, linear_x := Double.nonfinite,
               linear_y := Double.nonfinite, angular_z := Double.nonfinite } := by
  constructor
  · rw [sensorCallback_published _ _ (by decide) (by decide)]
    simp [deltaToSec]
  · rw [sensorCallback_published _ _ (by decide) (by decide)]
    simp [deltaToSec]

/-- C13 (amended): on a processed message that is not the first, when the four
computed wheel rates are one and the same real number `c` and
`wheelRadius + halfLength` is not zero, the published velocity has `vy = 0`
and `omega = 0` (and `vx = c * wheelRadius`), for any `wheelRadius`. -/
theorem C13_equal_rates (s : ComputeVelocity ℝ) (msg : JointState ℝ) (c : ℝ)
    (hproc : Int.tmod s.msgCount msgInterval = 0) (hfirst : s.msgCount ≠ 0)
    (hfl : (Double.val (msg.position 0) / Double.val (s.gearRatio : ℝ) - s.ticfl0)
        / Double.val (deltaToSec msg.stamp s.ts0)
        * 2 * Double.val Real.pi / Double.val (s.tickResolution : ℝ) = Double.val c)
    (hfr : (Double.val (msg.position 1) / Double.val (s.gearRatio : ℝ) - s.ticfr0)
        / Double.val (deltaToSec msg.stamp s.ts0)
        * 2 * Double.val Real.pi / Double.val (s.tickResolution : ℝ) = Double.val c)
    (hrl : (Double.val (msg.position 2) / Double.val (s.gearRatio : ℝ) - s.ticrl0)
        / Double.val (deltaToSec msg.stamp s.ts0)
        * 2 * Double.val Real.pi / Double.val (s.tickResolution : ℝ) = Double.val c)
    (hrr : (Double.val (msg.position 3) / Double.val (s.gearRatio : ℝ) - s.ticrr0)
        / Double.val (deltaToSec msg.stamp s.ts0)
        * 2 * Double.val Real.pi / Double.val (s.tickResolution : ℝ) = Double.val c)
    (hden : s.wheelRadius + s.halfLength ≠ 0) :
    (sensorCallback s msg).2 = some
      { stamp := msg.stamp, linear_x := Double.val (c * s.wheelRadius),
        linear_y := Double.val 0, angular_z := Double.val 0 } := by
  rw [sensorCallback_published s msg hproc hfirst]
  simp only [hfl, hfr, hrl, hrr]
  simp [hden]
  ring

/-- Witness of C13 (amended): default configuration, counter 5, zero
references at 0 s, and a message stamped 1 s with all four positions 210:
all four rates are `2π`, so `vy = 0` and `omega = 0`. -/
theorem C13_equal_rates_witness :
    (sensorCallback
        (running 0.07 0.2 0 0 5 : ComputeVelocity ℝ)
        (ticks 1 210)).2
      = some { stamp := { sec := 1, nsec := 0 },
               linear_x := Double.val (2 * Real.pi * 0.07),
               linear_y := Double.val 0, angular_z := Double.val 0 } := by
  have hw : ∀ i : Fin 4,
      (Double.val ((fun _ => 210 : Fin 4 → ℝ) i) / Double.val (((5 : Int) : ℝ)) - Double.val 0)
        / Double.val (deltaToSec { sec := 1, nsec := 0 } { sec := 0, nsec := 0 })
        * 2 * Double.val Real.pi / Double.val (((42 : Int) : ℝ))
      = Double.val (2 * Real.pi) := by
    intro i
    simp [deltaToSec]
    ring
  exact C13_equal_rates
    (running 0.07 0.2 0 0 5 : ComputeVelocity ℝ)
    (ticks 1 210) (2 * Real.pi)
    (by decide) (by decide) (hw 0) (hw 1) (hw 2) (hw 3) (by norm_num)

end ComputeVelocity

namespace ComputeVelocity

/-- C20 (as stated, refuted): a fresh default node receives six messages with
the same stamp and all positions 0.  The sixth (ordinal 5) is processed, its
angles equal the stored references, and `dt = 0`: every wheel rate is `0/0`,
so `vx`, `vy` and `omega` are not finite instead of 0. -/
theorem C20_stationary_zero_dt_not_zero :
    (sensorCallback
        (feed (new 5 0.07 0.2 0.169 42 : ComputeVelocity ℝ)
          [(ticks 1 0),
           (ticks 1 0),
           (ticks 1 0),
           (ticks 1 0),
           (ticks 1 0)])
        (ticks 1 0)).2
      = some { stamp := { sec := 1, nsec := 0 }, linear_x := Double.nonfinite,
               linear_y := Double.nonfinite, angular_z := Double.nonfinite }
    ∧ (feed (new 5 0.07 0.2 0.169 42 : ComputeVelocity ℝ)
          [(ticks 1 0),
           (ticks 1 0),
           (ticks 1 0),
           (ticks 1 0),
           (ticks 1 0)]).ticfl0
      = Double.val 0 / Double.val ((5 : Int) : ℝ) := by
  obtain ⟨hcnt, hts, h1, h2, h3, h4, hgr, hwr, hhl, htr⟩ :=
    feed_after_processed 5 (0.07 : ℝ) 0.2 0.169 42 []
      (ticks 1 0)
      [(ticks 1 0),
       (ticks 1 0),
       (ticks 1 0),
       (ticks 1 0)]
      (by decide) (by decide) (by decide)
  simp only [List.nil_append] at hcnt hts h1 h2 h3 h4 hgr hwr hhl htr
  refine ⟨?_, h1⟩
  generalize feed (new 5 (0.07 : ℝ) 0.2 0.169 42) _ = s at hcnt hts h1 h2 h3 h4 hgr hwr hhl htr ⊢
  have hproc : Int.tmod s.msgCount msgInterval = 0 := by rw [hcnt]; decide
  have hfirst : s.msgCount ≠ 0 := by rw [hcnt]; decide
  rw [sensorCallback_published s _ hproc hfirst]
  simp [hts, h1, h2, h3, h4, hgr, hwr, hhl, htr, deltaToSec]

/-- C20 (amended): on a processed message that is not the first, when each
`position / gearRatio` equals the stored reference angle and `gearRatio`, the
elapsed time `dt`, `tickResolution` and `wheelRadius + halfLength` are all
different from zero, the published velocity has `vx = 0`, `vy = 0` and
`omega = 0`. -/
theorem C20_stationary_wheels (s : ComputeVelocity ℝ) (msg : JointState ℝ)
    (hproc : Int.tmod s.msgCount msgInterval = 0) (hfirst : s.msgCount ≠ 0)
    (hfl : Double.val (msg.position 0) / Double.val (s.gearRatio : ℝ) = s.ticfl0)
    (hfr : Double.val (msg.position 1) / Double.val (s.gearRatio : ℝ) = s.ticfr0)
    (hrl : Double.val (msg.position 2) / Double.val (s.gearRatio : ℝ) = s.ticrl0)
    (hrr : Double.val (msg.position 3) / Double.val (s.gearRatio : ℝ) = s.ticrr0)
    (hg : s.gearRatio ≠ 0) (hdt : deltaToSec msg.stamp s.ts0 ≠ (0 : ℝ))
    (htr : s.tickResolution ≠ 0) (hden : s.wheelRadius + s.halfLength ≠ 0) :
    (sensorCallback s msg).2 = some
      { stamp := msg.stamp, linear_x := Double.val 0, linear_y := Double.val 0,
        angular_z := Double.val 0 } := by
  have hg1 : (s.gearRatio : ℝ) ≠ 0 := Int.cast_ne_zero.mpr hg
  have htr1 : (s.tickResolution : ℝ) ≠ 0 := Int.cast_ne_zero.mpr htr
  rw [sensorCallback_published s msg hproc hfirst]
  simp only [← hfl, ← hfr, ← hrl, ← hrr]
  simp [hg1, htr1, hdt, hden]

/-- Witness of C20 (amended): default configuration, counter 5, references
`2` at 0 s, and a message stamped 1 s with all four positions 10
(`10 / 5 = 2`): the published velocity is zero. -/
theorem C20_stationary_wheels_witness :
    (sensorCallback
        (running 0.07 0.2 2 0 5 : ComputeVelocity ℝ)
        (ticks 1 10)).2
      = some { stamp := { sec := 1, nsec := 0 }, linear_x := Double.val 0,
               linear_y := Double.val 0, angular_z := Double.val 0 } := by
  have ha : (Double.val (10 : ℝ) / Double.val (((5 : Int) : ℝ)) : Double ℝ) = Double.val 2 := by
    simp
    norm_num
  exact C20_stationary_wheels
    (running 0.07 0.2 2 0 5 : ComputeVelocity ℝ)
    (ticks 1 10)
    (by decide) (by decide) ha ha ha ha (by decide) (by simp [deltaToSec]) (by decide)
    (by norm_num)

end ComputeVelocity
